import Mathlib

/-!
Shallow embedding of `src/excel_to_pdf.py` (Excel → Persian payslip PDF
generator).  Covered here: cell values and the column-oriented loaded table,
the tolerant column getter `get`, the RTL shaping wrapper `fix_rtl`, the
`make_block` / `create_payslip` cell display rules, the output filename
construction of `create_payslip`, the per-batch options built in `_worker`,
and the `_worker` driver loop with its cancellation flag, error log and
summary message.
-/

namespace ExcelToPdf

/-- A spreadsheet cell value: a string or a number.  Numbers are modelled as
integers (the payroll columns hold whole amounts); a missing/NA cell is
`none` at the `Option Value` level, mirroring `pd.isna`. -/
inductive Value where
  | str (s : String)
  | num (n : Int)
deriving DecidableEq

/-- Python `str(v)` on a cell value. -/
def pyStr : Value → String
  | .str s => s
  | .num n => toString n

/-- Python `v == 0` on a cell value (true only for the number 0). -/
def pyEqZero : Value → Bool
  | .str _ => false
  | .num n => n == 0

/-- A loaded table, column oriented as in pandas: each column is a name with
its list of cells; `none` cells are NA. -/
structure DataFrame where
  cols : List (String × List (Option Value))
deriving DecidableEq

/-- `df[c]`: the cells of column `c`, when the column is present. -/
def lookupCol (df : DataFrame) (c : String) : Option (List (Option Value)) :=
  (df.cols.find? (fun p => p.1 == c)).map Prod.snd

/-- `get(df, col, default)` from `excel_to_pdf.py` lines 127-134: reads
`df[col].iloc[0]`; a missing column (`KeyError`, caught) and an NA first
cell both give the default; the `IndexError` that `iloc[0]` would raise on a
present but empty column is not caught in the source and is the `.error`
case here. -/
def get (df : DataFrame) (col : String) (default : Value) : Except String Value :=
  match lookupCol df col with
  | none => .ok default
  | some [] => .error "IndexError"
  | some (none :: _) => .ok default
  | some (some v :: _) => .ok v

/-- `fix_rtl(text)` from lines 96-107, with the module state passed in:
`bidiSupport` is the `BIDI_SUPPORT` flag and `shaper` stands for
`arabic_reshaper.reshape` composed with `bidi.algorithm.get_display`
(`.error` when either raises).  `none` input is Python `None`. -/
def fix_rtl (bidiSupport : Bool) (shaper : String → Except String String) :
    Option String → String
  | none => ""
  | some t =>
    if !bidiSupport then t
    else
      match shaper t with
      | .ok r => r
      | .error _ => t

/-- The value-cell text of `make_block` line 165: `"-" if v == 0 else str(v)`. -/
def zeroDash (v : Value) : String := if pyEqZero v then "-" else pyStr v

/-- The value/label cell texts of one block table (`make_block` line 165,
value column first as in the source). -/
def makeBlockData (rows : List (String × Value)) : List (List String) :=
  rows.map (fun kv => [zeroDash kv.2, kv.1])

/-- Displayed text of the benefits-block total: `get(person_df, "جمع مزایا", 0)`
(line 271), rendered through the `make_block` zero rule as one of the block
rows (line 272). -/
def benefitTotalShown (df : DataFrame) : Except String String :=
  (get df "جمع مزایا" (.num 0)).map zeroDash

/-- Displayed text of the deductions-block total: `get(person_df, "جمع کسور", 0)`
(line 283), rendered through the `make_block` zero rule (line 284). -/
def deductionTotalShown (df : DataFrame) : Except String String :=
  (get df "جمع کسور" (.num 0)).map zeroDash

/-- Displayed net-pay cell: `str(net_pay)` with
`net_pay = get(person_df, "جمع حقوق", 0)` (lines 298 and 302); no
zero-to-dash rule applies there. -/
def netPayText (df : DataFrame) : Except String String :=
  (get df "جمع حقوق" (.num 0)).map pyStr

/-- Python `.strip()` on a character list: drop whitespace at both ends. -/
def pyStrip (cs : List Char) : List Char :=
  ((cs.dropWhile Char.isWhitespace).reverse.dropWhile Char.isWhitespace).reverse

/-- `safe_name` of `create_payslip` lines 204-205: keep alphanumerics
(Python's Unicode `str.isalnum`, passed in as the parameter `isAlnum`),
spaces, underscores and hyphens, then `.strip()`. -/
def sanitizeName (isAlnum : Char → Bool) (s : String) : String :=
  String.mk (pyStrip (s.data.filter
    (fun c => isAlnum c || c == ' ' || c == '_' || c == '-')))

/-- The output filename, `create_payslip` lines 206-209:
`f"{safe_name}‑{person_code}.pdf"` when the employee code is truthy and not
`"-"`, else `f"{safe_name}‑{uuid.uuid4().hex[:4]}.pdf"` with the random hex
digits passed in as `uuidHex`.  The joiner is the source's U+2011
non-breaking hyphen. -/
def mkFilename (isAlnum : Char → Bool) (personName personCode uuidHex : String) : String :=
  let safe := sanitizeName isAlnum personName
  if personCode ≠ "" ∧ personCode ≠ "-" then safe ++ "‑" ++ personCode ++ ".pdf"
  else safe ++ "‑" ++ uuidHex ++ ".pdf"

/-- The per-batch options dict built in `_worker` lines 469-473. -/
structure Opts where
  company : String
  period : String
  disclaimer : String
deriving DecidableEq

/-- Python `s.strip()` on a string. -/
def pyStripStr (s : String) : String := String.mk (pyStrip s.data)

/-- `_worker` lines 469-473: `entry.get().strip() or "-"` for company and
period, bare `.strip()` for the disclaimer. -/
def mkOpts (company period disclaimer : String) : Opts :=
  { company := if pyStripStr company = "" then "-" else pyStripStr company,
    period := if pyStripStr period = "" then "-" else pyStripStr period,
    disclaimer := pyStripStr disclaimer }

/-- `create_payslip` line 316: the disclaimer paragraph is added iff
`opts["disclaimer"]` is truthy (non-empty). -/
def disclaimerShown (o : Opts) : Bool := !(o.disclaimer == "")

/-- `df[col].dropna()`: the non-NA cells of a column, in order. -/
def dropna (cells : List (Option Value)) : List Value := cells.filterMap id

/-- Helper for `uniqueFS`: keep the elements not in `seen`, remembering each
kept element, as the hash-table walk inside `pandas.unique` does. -/
def uniqueAux {α : Type} [DecidableEq α] (seen : List α) : List α → List α
  | [] => []
  | a :: l => if a ∈ seen then uniqueAux seen l else a :: uniqueAux (a :: seen) l

/-- `pandas.unique` (line 464): distinct values in order of first
appearance, not sorted. -/
def uniqueFS {α : Type} [DecidableEq α] (l : List α) : List α := uniqueAux [] l

/-- One entry of `converter_error.log` (lines 497-499): a timestamp, the
failing name and the error detail.  The wall-clock timestamp written by
`datetime.now()` is modelled by the iteration index at which the failure
happened. -/
structure LogEntry where
  time : Nat
  name : Value
  err : String
deriving DecidableEq

/-- State threaded through the `_worker` loop: the `ok` and `bad` counters,
the documents written so far (identified by the rendered name, in order),
the error-log contents, and how many times the cancellation flag has been
read. -/
structure WorkerState where
  ok : Nat
  bad : Nat
  docs : List Value
  log : List LogEntry
  checks : Nat
deriving DecidableEq

/-- The for-loop of `_worker` lines 475-499.  `render n` stands for
`create_payslip(df[df[name_col] == n], out_dir, opts, name_col)`; `stop i`
is the value the shared `_stop_requested` flag has when iteration `i` reads
it (the flag is only ever set during a run, never cleared).  Each iteration
first reads the flag (line 476) and breaks when it is set; a successful
render bumps `ok` and writes one file, a failing render bumps `bad` and
appends one timestamped entry to the log (lines 486-499). -/
def workerLoop (render : Value → Except String Unit) (stop : Nat → Bool) :
    List Value → Nat → WorkerState → WorkerState
  | [], _, s => s
  | n :: rest, i, s =>
    let s1 : WorkerState := { s with checks := s.checks + 1 }
    if stop i then s1
    else
      match render n with
      | .ok _ => workerLoop render stop rest (i + 1)
          { s1 with ok := s1.ok + 1, docs := s1.docs ++ [n] }
      | .error e => workerLoop render stop rest (i + 1)
          { s1 with bad := s1.bad + 1, log := s1.log ++ [⟨i, n, e⟩] }

/-- The summary message of `_worker` lines 501-505. -/
def summaryMsg (ok bad : Nat) (stopRequested : Bool) : String :=
  let m := "✅ " ++ toString ok ++ " PDF(s) created"
  let m := if bad ≠ 0
    then m ++ "  –  ❌ " ++ toString bad ++ " failed (see converter_error.log)"
    else m
  if stopRequested then "⏹ Operation cancelled.\n" ++ m else m

/-- Outcome of one `_worker` run: the counters, written documents, log,
flag reads, the final flag value and the summary message shown to the
user. -/
structure WorkerResult where
  ok : Nat
  bad : Nat
  docs : List Value
  log : List LogEntry
  checks : Nat
  cancelled : Bool
  msg : String
deriving DecidableEq

/-- `_worker` lines 456-507 on a loaded table: raise the `ValueError` of
line 460 when the name column is absent, otherwise loop over the distinct
non-null names in first-seen order (line 464).  The summary reads the flag
once more after the loop (line 504); that read happens later than every
loop read, so it is modelled as `stop` at index `names.length`. -/
def workerRun (render : Value → Except String Unit) (stop : Nat → Bool)
    (df : DataFrame) (nameCol : String) : Except String WorkerResult :=
  match lookupCol df nameCol with
  | none => .error ("Column «" ++ nameCol ++ "» not found.")
  | some cells =>
    let names := uniqueFS (dropna cells)
    let s := workerLoop render stop names 0 ⟨0, 0, [], [], 0⟩
    let fin := stop names.length
    .ok { ok := s.ok, bad := s.bad, docs := s.docs, log := s.log,
          checks := s.checks, cancelled := fin, msg := summaryMsg s.ok s.bad fin }

/-- Specification helper: whether a render attempt succeeded. -/
def isOkB : Except String Unit → Bool
  | .ok _ => true
  | .error _ => false

/-- Specification helper: the names a given renderer succeeds on, in
order. -/
def okList (render : Value → Except String Unit) (names : List Value) : List Value :=
  names.filter (fun n => isOkB (render n))

/-- Specification helper: the log entries the loop writes when it processes
`names` starting at iteration index `i`. -/
def failLog (render : Value → Except String Unit) : List Value → Nat → List LogEntry
  | [], _ => []
  | n :: rest, i =>
    match render n with
    | .ok _ => failLog render rest (i + 1)
    | .error e => ⟨i, n, e⟩ :: failLog render rest (i + 1)

/-- A cancellation flag that is set starting with iteration `k` (the user
presses Cancel after `k` employees have been processed). -/
def stopAt (k : Nat) : Nat → Bool := fun i => decide (k ≤ i)

lemma mem_uniqueAux {α : Type} [DecidableEq α] (b : α) :
    ∀ (l seen : List α), b ∈ uniqueAux seen l ↔ b ∈ l ∧ b ∉ seen := by
  intro l
  induction l with
  | nil => intro seen; simp [uniqueAux]
  | cons a l ih =>
    intro seen
    by_cases h : a ∈ seen
    · simp only [uniqueAux, if_pos h, ih, List.mem_cons]
      constructor
      · rintro ⟨hb, hs⟩; exact ⟨Or.inr hb, hs⟩
      · rintro ⟨hb | hb, hs⟩
        · exact absurd (hb ▸ h) hs
        · exact ⟨hb, hs⟩
    · simp only [uniqueAux, if_neg h, List.mem_cons, ih]
      constructor
      · rintro (rfl | ⟨hb, hs⟩)
        · exact ⟨Or.inl rfl, h⟩
        · exact ⟨Or.inr hb, fun hc => hs (Or.inr hc)⟩
      · rintro ⟨hb | hb, hs⟩
        · exact Or.inl hb
        · by_cases hba : b = a
          · exact Or.inl hba
          · exact Or.inr ⟨hb, fun hc => hc.elim hba hs⟩

lemma mem_uniqueFS {α : Type} [DecidableEq α] (b : α) (l : List α) :
    b ∈ uniqueFS l ↔ b ∈ l := by
  simp [uniqueFS, mem_uniqueAux]

lemma nodup_uniqueAux {α : Type} [DecidableEq α] :
    ∀ (l seen : List α), (uniqueAux seen l).Nodup := by
  intro l
  induction l with
  | nil => intro seen; simp [uniqueAux]
  | cons a l ih =>
    intro seen
    by_cases h : a ∈ seen
    · simpa [uniqueAux, if_pos h] using ih seen
    · simp only [uniqueAux, if_neg h]
      refine List.Nodup.cons ?_ (ih (a :: seen))
      intro hmem
      exact ((mem_uniqueAux a l (a :: seen)).1 hmem).2 (List.mem_cons_self a seen)

lemma nodup_uniqueFS {α : Type} [DecidableEq α] (l : List α) :
    (uniqueFS l).Nodup := nodup_uniqueAux l []

lemma sublist_uniqueAux {α : Type} [DecidableEq α] :
    ∀ (l seen : List α), List.Sublist (uniqueAux seen l) l := by
  intro l
  induction l with
  | nil => intro seen; simp [uniqueAux]
  | cons a l ih =>
    intro seen
    by_cases h : a ∈ seen
    · simp only [uniqueAux, if_pos h]
      exact (ih seen).cons a
    · simp only [uniqueAux, if_neg h]
      exact (ih (a :: seen)).cons₂ a

lemma sublist_uniqueFS {α : Type} [DecidableEq α] (l : List α) :
    List.Sublist (uniqueFS l) l := sublist_uniqueAux l []

lemma length_okList_add_length_filter_not (render : Value → Except String Unit)
    (names : List Value) :
    (okList render names).length
      + (names.filter (fun n => !(isOkB (render n)))).length = names.length := by
  induction names with
  | nil => simp [okList]
  | cons n rest ih =>
    cases hr : isOkB (render n) <;>
      simp [okList, List.filter_cons, hr] at ih ⊢ <;> omega

lemma failLog_length (render : Value → Except String Unit) :
    ∀ (names : List Value) (i : Nat),
    (failLog render names i).length
      = (names.filter (fun n => !(isOkB (render n)))).length := by
  intro names
  induction names with
  | nil => intro i; simp [failLog]
  | cons n rest ih =>
    intro i
    cases hr : render n with
    | ok u => simp [failLog, hr, ih, List.filter_cons, isOkB]
    | error e => simp [failLog, hr, ih, List.filter_cons, isOkB]

lemma mem_failLog (render : Value → Except String Unit) :
    ∀ (names : List Value) (i : Nat) (l : LogEntry),
    l ∈ failLog render names i → render l.name = .error l.err ∧ l.name ∈ names := by
  intro names
  induction names with
  | nil => intro i l hl; simp [failLog] at hl
  | cons n rest ih =>
    intro i l hl
    cases hr : render n with
    | ok u =>
      rw [failLog, hr] at hl
      obtain ⟨h1, h2⟩ := ih (i + 1) l hl
      exact ⟨h1, List.mem_cons_of_mem _ h2⟩
    | error e =>
      rw [failLog, hr] at hl
      rcases List.mem_cons.1 hl with rfl | hl
      · exact ⟨hr, List.mem_cons_self _ _⟩
      · obtain ⟨h1, h2⟩ := ih (i + 1) l hl
        exact ⟨h1, List.mem_cons_of_mem _ h2⟩

/-- Closed form of the `_worker` loop when the cancellation flag is never
set: every name is processed, successes in order become documents, failures
become log entries, and the flag is read once per employee. -/
lemma workerLoop_noStop (render : Value → Except String Unit) :
    ∀ (names : List Value) (i : Nat) (s : WorkerState),
    workerLoop render (fun _ => false) names i s =
      { ok := s.ok + (okList render names).length,
        bad := s.bad + (names.filter (fun n => !(isOkB (render n)))).length,
        docs := s.docs ++ okList render names,
        log := s.log ++ failLog render names i,
        checks := s.checks + names.length } := by
  intro names
  induction names with
  | nil => intro i s; simp [workerLoop, okList, failLog]
  | cons n rest ih =>
    intro i s
    cases hr : render n with
    | ok u =>
      have hOk : isOkB (render n) = true := by simp [isOkB, hr]
      simp [workerLoop, hr, ih, okList, List.filter_cons, hOk, failLog, isOkB,
        WorkerState.mk.injEq, List.append_assoc]
      omega
    | error e =>
      have hOk : isOkB (render n) = false := by simp [isOkB, hr]
      simp [workerLoop, hr, ih, okList, List.filter_cons, hOk, failLog, isOkB,
        WorkerState.mk.injEq, List.append_assoc]
      omega

/-- Closed form of the `_worker` loop when the cancellation flag becomes set
at iteration `k`: only the first `k - i` names are processed, and the
breaking iteration still reads the flag once. -/
lemma workerLoop_stopAt (render : Value → Except String Unit) (k : Nat) :
    ∀ (names : List Value) (i : Nat) (s : WorkerState),
    workerLoop render (stopAt k) names i s =
      { ok := s.ok + (okList render (names.take (k - i))).length,
        bad := s.bad + ((names.take (k - i)).filter (fun n => !(isOkB (render n)))).length,
        docs := s.docs ++ okList render (names.take (k - i)),
        log := s.log ++ failLog render (names.take (k - i)) i,
        checks := s.checks + (if k - i < names.length then (k - i) + 1 else names.length) } := by
  intro names
  induction names with
  | nil => intro i s; simp [workerLoop, okList, failLog]
  | cons n rest ih =>
    intro i s
    by_cases hki : k ≤ i
    · have hz : k - i = 0 := Nat.sub_eq_zero_of_le hki
      have hstop : stopAt k i = true := by simp [stopAt, hki]
      simp [workerLoop, hstop, hz, okList, failLog, WorkerState.mk.injEq]
    · have hlt : i < k := Nat.lt_of_not_le hki
      have hstop : stopAt k i = false := by simp [stopAt]; omega
      have htake : (n :: rest).take (k - i) = n :: rest.take (k - (i + 1)) := by
        have : k - i = (k - (i + 1)) + 1 := by omega
        simp [this]
      cases hr : render n with
      | ok u =>
        have hOk : isOkB (render n) = true := by simp [isOkB, hr]
        simp only [workerLoop, hstop, Bool.false_eq_true, if_false, hr, ih, htake]
        simp [okList, List.filter_cons, hOk, failLog, hr, isOkB,
          WorkerState.mk.injEq, List.append_assoc, List.length_cons]
        refine ⟨by omega, ?_⟩
        rcases Nat.lt_or_ge (k - (i + 1)) rest.length with hc | hc
        · have hc1 : k - (i + 1) < rest.length := hc
          have hc2 : k - i < rest.length + 1 := by omega
          simp [hc1, hc2]
          omega
        · have hc1 : ¬ k - (i + 1) < rest.length := Nat.not_lt.2 hc
          have hc2 : ¬ k - i < rest.length + 1 := by omega
          simp [hc1, hc2]
          omega
      | error e =>
        have hOk : isOkB (render n) = false := by simp [isOkB, hr]
        simp only [workerLoop, hstop, Bool.false_eq_true, if_false, hr, ih, htake]
        simp [okList, List.filter_cons, hOk, failLog, hr, isOkB,
          WorkerState.mk.injEq, List.append_assoc, List.length_cons]
        refine ⟨by omega, ?_⟩
        rcases Nat.lt_or_ge (k - (i + 1)) rest.length with hc | hc
        · have hc1 : k - (i + 1) < rest.length := hc
          have hc2 : k - i < rest.length + 1 := by omega
          simp [hc1, hc2]
          omega
        · have hc1 : ¬ k - (i + 1) < rest.length := Nat.not_lt.2 hc
          have hc2 : ¬ k - i < rest.length + 1 := by omega
          simp [hc1, hc2]
          omega

lemma pyStrip_subset (cs : List Char) : ∀ c ∈ pyStrip cs, c ∈ cs := by
  intro c hc
  simp only [pyStrip, List.mem_reverse] at hc
  have h1 : c ∈ (cs.dropWhile Char.isWhitespace).reverse :=
    (List.dropWhile_sublist Char.isWhitespace).subset hc
  have h2 : c ∈ cs.dropWhile Char.isWhitespace := List.mem_reverse.1 h1
  exact (List.dropWhile_sublist Char.isWhitespace).subset h2

/-- Claim C3: for every row table, field name and default value, `get`
returns the default when the field is absent from the schema or when its
first-row value is null, otherwise it returns the raw first-row cell value
unmodified; a missing field never raises. -/
theorem c3_get_total_with_default (df : DataFrame) (col : String) (d : Value) :
    (lookupCol df col = none → get df col d = .ok d) ∧
    (∀ rest, lookupCol df col = some (none :: rest) → get df col d = .ok d) ∧
    (∀ v rest, lookupCol df col = some (some v :: rest) → get df col d = .ok v) := by
  refine ⟨fun h => ?_, fun rest h => ?_, fun v rest h => ?_⟩ <;> simp [get, h]

/-- Witness for C3 at concrete tables: a missing column, an NA first cell
and a present numeric first cell. -/
theorem c3_get_total_with_default_witness :
    get ⟨[]⟩ "کد پرسنلی" (.str "-") = .ok (.str "-") ∧
    get ⟨[("کد پرسنلی", [none])]⟩ "کد پرسنلی" (.str "-") = .ok (.str "-") ∧
    get ⟨[("کد پرسنلی", [some (.num 17)])]⟩ "کد پرسنلی" (.str "-") = .ok (.num 17) :=
  ⟨(c3_get_total_with_default ⟨[]⟩ "کد پرسنلی" (.str "-")).1 rfl,
   (c3_get_total_with_default ⟨[("کد پرسنلی", [none])]⟩ "کد پرسنلی" (.str "-")).2.1 [] rfl,
   (c3_get_total_with_default ⟨[("کد پرسنلی", [some (.num 17)])]⟩ "کد پرسنلی"
      (.str "-")).2.2 (.num 17) [] rfl⟩

/-- Claim C8: the text-shaping step is total: with the shaping capability
unavailable the text is emitted unshaped; an internal shaping error returns
the input text unchanged; `None` becomes the empty string.  `fix_rtl` always
returns a string, so shaping never crashes the render. -/
theorem c8_fix_rtl_never_crashes (bidi : Bool)
    (shaper : String → Except String String) (t : Option String) :
    (fix_rtl false shaper t = t.getD "") ∧
    (∀ s e, t = some s → shaper s = .error e → fix_rtl true shaper t = s) ∧
    (fix_rtl bidi shaper none = "") := by
  refine ⟨?_, ?_, ?_⟩
  · cases t <;> rfl
  · intro s e hs he
    subst hs
    simp [fix_rtl, he]
  · cases bidi <;> rfl

/-- Witness for C8: a shaper that always raises leaves the text unchanged. -/
theorem c8_fix_rtl_never_crashes_witness :
    fix_rtl true (fun _ => .error "reshape failed") (some "سلام") = "سلام" :=
  (c8_fix_rtl_never_crashes true (fun _ => .error "reshape failed")
    (some "سلام")).2.1 "سلام" "reshape failed" rfl rfl

/-- Claim C9: in the three labelled blocks every field value equal to 0 —
including a block total that defaulted to 0 because its column is missing —
is displayed as "-", while the net-pay cell displays 0 as "0". -/
theorem c9_zero_dash_blocks_but_net (df : DataFrame)
    (rows : List (String × Value)) (k : String) (v : Value) :
    ((k, v) ∈ rows → pyEqZero v = true → ["-", k] ∈ makeBlockData rows) ∧
    (lookupCol df "جمع مزایا" = none → benefitTotalShown df = .ok "-") ∧
    (lookupCol df "جمع کسور" = none → deductionTotalShown df = .ok "-") ∧
    (get df "جمع حقوق" (.num 0) = .ok (.num 0) → netPayText df = .ok "0") := by
  refine ⟨?_, ?_, ?_, ?_⟩
  · intro hm hz
    have hshow : zeroDash v = "-" := by simp [zeroDash, hz]
    have := List.mem_map_of_mem (fun kv : String × Value => [zeroDash kv.2, kv.1]) hm
    simpa [makeBlockData, hshow] using this
  · intro h
    have hg : get df "جمع مزایا" (.num 0) = .ok (.num 0) := by simp [get, h]
    rw [benefitTotalShown, hg]
    rfl
  · intro h
    have hg : get df "جمع کسور" (.num 0) = .ok (.num 0) := by simp [get, h]
    rw [deductionTotalShown, hg]
    rfl
  · intro h
    rw [netPayText, h]
    rfl

/-- Witness for C9: a table with a zero insurance cell and all three total
columns missing. -/
theorem c9_zero_dash_blocks_but_net_witness :
    ["-", "بیمه"] ∈ makeBlockData [("بیمه", Value.num 0)] ∧
    benefitTotalShown ⟨[("بیمه", [some (.num 0)])]⟩ = .ok "-" ∧
    deductionTotalShown ⟨[("بیمه", [some (.num 0)])]⟩ = .ok "-" ∧
    netPayText ⟨[("بیمه", [some (.num 0)])]⟩ = .ok "0" :=
  ⟨(c9_zero_dash_blocks_but_net ⟨[]⟩ [("بیمه", Value.num 0)] "بیمه" (Value.num 0)).1
      (by decide) rfl,
   (c9_zero_dash_blocks_but_net ⟨[("بیمه", [some (.num 0)])]⟩ [] "" (Value.num 0)).2.1 rfl,
   (c9_zero_dash_blocks_but_net ⟨[("بیمه", [some (.num 0)])]⟩ [] "" (Value.num 0)).2.2.1 rfl,
   (c9_zero_dash_blocks_but_net ⟨[("بیمه", [some (.num 0)])]⟩ [] "" (Value.num 0)).2.2.2 rfl⟩

/-- Claim C6 counterexample: the code renders 1234567 with Python `str`,
producing "1234567", not a thousands-grouped "1,234,567". -/
theorem c6_thousands_separator_counterexample :
    zeroDash (Value.num 1234567) = "1234567" ∧
    zeroDash (Value.num 1234567) ≠ "1,234,567" := by
  constructor <;> decide

/-- Claim C6 (amended): the value formatter of the blocks applies no
thousands grouping: a non-zero number renders via `str` (so 1234567 gives
"1234567"), zero renders as "-", and non-numeric input passes through
unchanged without raising. -/
theorem c6_amended_plain_str_rendering :
    zeroDash (Value.num 1234567) = "1234567" ∧
    (∀ n : Int, n ≠ 0 → zeroDash (Value.num n) = toString n) ∧
    (∀ s, zeroDash (Value.str s) = s) ∧
    zeroDash (Value.num 0) = "-" := by
  refine ⟨by decide, ?_, fun s => rfl, by decide⟩
  intro n hn
  simp [zeroDash, pyEqZero, pyStr, hn]

/-- Witness for C6 (amended) at a concrete non-zero number. -/
theorem c6_amended_plain_str_rendering_witness :
    zeroDash (Value.num 3) = toString (3 : Int) :=
  c6_amended_plain_str_rendering.2.1 3 (by decide)

/-- Claim C5 counterexample: an employee with employee code "123" gets the
code, not the random suffix, in the filename. -/
theorem c5_random_suffix_counterexample :
    mkFilename Char.isAlphanum "Ali" "123" "abcd"
      ≠ sanitizeName Char.isAlphanum "Ali" ++ "‑" ++ "abcd" ++ ".pdf" := by
  decide

/-- Claim C5 (amended): for every employee whose employee code is empty or
"-", the output filename is the sanitized name, the non-breaking-hyphen
joiner, the short random suffix and ".pdf"; when a non-default code is
present the code replaces the random suffix.  Sanitization keeps only
alphanumerics, spaces, underscores and hyphens (dropping every other
character and stripping leading/trailing whitespace). -/
theorem c5_amended_random_suffix_without_code (isAlnum : Char → Bool)
    (name code uuid : String) (h : code = "" ∨ code = "-") :
    mkFilename isAlnum name code uuid
      = sanitizeName isAlnum name ++ "‑" ++ uuid ++ ".pdf" ∧
    ∀ c ∈ (sanitizeName isAlnum name).data,
      isAlnum c = true ∨ c = ' ' ∨ c = '_' ∨ c = '-' := by
  constructor
  · rcases h with rfl | rfl <;> simp [mkFilename]
  · intro c hc
    have h1 : c ∈ name.data.filter
        (fun c => isAlnum c || c == ' ' || c == '_' || c == '-') :=
      pyStrip_subset _ c hc
    have h2 := List.of_mem_filter h1
    simp only [Bool.or_eq_true, beq_iff_eq] at h2
    tauto

/-- Witness for C5 (amended): empty employee code gives the random-suffix
filename. -/
theorem c5_amended_random_suffix_without_code_witness :
    mkFilename Char.isAlphanum "Ali Reza" "" "ab12"
      = sanitizeName Char.isAlphanum "Ali Reza" ++ "‑" ++ "ab12" ++ ".pdf" :=
  (c5_amended_random_suffix_without_code Char.isAlphanum "Ali Reza" "" "ab12"
    (Or.inl rfl)).1

/-- Claim C10: with a present, non-null employee code other than "-", the
filename is deterministic — the sanitized name joined to the code, with no
random suffix — so equal sanitized names and codes give the same path on
any two runs. -/
theorem c10_code_filename_deterministic (isAlnum : Char → Bool)
    (n1 n2 code u1 u2 : String)
    (hs : sanitizeName isAlnum n1 = sanitizeName isAlnum n2)
    (h1 : code ≠ "") (h2 : code ≠ "-") :
    mkFilename isAlnum n1 code u1 = mkFilename isAlnum n2 code u2 ∧
    mkFilename isAlnum n1 code u1
      = sanitizeName isAlnum n1 ++ "‑" ++ code ++ ".pdf" := by
  have hc : code ≠ "" ∧ code ≠ "-" := ⟨h1, h2⟩
  constructor
  · simp [mkFilename, hc, hs]
  · simp [mkFilename, hc]

/-- Witness for C10: two runs with different random draws produce the same
filename for an employee with code "E42". -/
theorem c10_code_filename_deterministic_witness :
    mkFilename Char.isAlphanum "Ali" "E42" "aaaa"
      = mkFilename Char.isAlphanum "Ali" "E42" "bbbb" ∧
    mkFilename Char.isAlphanum "Ali" "E42" "aaaa"
      = sanitizeName Char.isAlphanum "Ali" ++ "‑" ++ "E42" ++ ".pdf" :=
  c10_code_filename_deterministic Char.isAlphanum "Ali" "Ali" "E42" "aaaa" "bbbb"
    rfl (by decide) (by decide)

/-- Claim C7 counterexample: a blank disclaimer is left empty, not replaced
by a placeholder. -/
theorem c7_disclaimer_not_defaulted_counterexample :
    (mkOpts "شرکت" "دوره" " ").disclaimer = "" ∧
    (mkOpts "شرکت" "دوره" " ").disclaimer ≠ "-" := by
  constructor <;> decide

/-- Claim C7 (amended): the company and period fields are replaced by the
"-" placeholder when blank; the disclaimer is only stripped — a blank
disclaimer stays empty and the disclaimer line is then omitted from the
document. -/
theorem c7_amended_company_period_defaulted (c p d : String) :
    (pyStripStr c = "" → (mkOpts c p d).company = "-") ∧
    (pyStripStr c ≠ "" → (mkOpts c p d).company = pyStripStr c) ∧
    (pyStripStr p = "" → (mkOpts c p d).period = "-") ∧
    (pyStripStr p ≠ "" → (mkOpts c p d).period = pyStripStr p) ∧
    (mkOpts c p d).disclaimer = pyStripStr d ∧
    (pyStripStr d = "" → disclaimerShown (mkOpts c p d) = false) := by
  refine ⟨fun h => ?_, fun h => ?_, fun h => ?_, fun h => ?_, rfl, fun h => ?_⟩ <;>
    simp [mkOpts, disclaimerShown, h]

/-- Witness for C7 (amended): blank and non-blank inputs. -/
theorem c7_amended_company_period_defaulted_witness :
    (mkOpts " " " " " ").company = "-" ∧
    (mkOpts " " " " " ").period = "-" ∧
    disclaimerShown (mkOpts " " " " " ") = false ∧
    (mkOpts "آگاه" "شهریور" "x").company = pyStripStr "آگاه" ∧
    (mkOpts "آگاه" "شهریور" "x").period = pyStripStr "شهریور" :=
  ⟨(c7_amended_company_period_defaulted " " " " " ").1 (by decide),
   (c7_amended_company_period_defaulted " " " " " ").2.2.1 (by decide),
   (c7_amended_company_period_defaulted " " " " " ").2.2.2.2.2 (by decide),
   (c7_amended_company_period_defaulted "آگاه" "شهریور" "x").2.1 (by decide),
   (c7_amended_company_period_defaulted "آگاه" "شهریور" "x").2.2.2.1 (by decide)⟩

lemma length_filter_ne_of_nodup {α : Type} [DecidableEq α]
    (l : List α) (a : α) (hn : l.Nodup) (ha : a ∈ l) :
    (l.filter (fun b => b ≠ a)).length + 1 = l.length := by
  induction l with
  | nil => cases ha
  | cons x t ih =>
    rcases List.mem_cons.1 ha with rfl | ha2
    · have hx : a ∉ t := (List.nodup_cons.1 hn).1
      have hfil : t.filter (fun b => b ≠ a) = t :=
        List.filter_eq_self.mpr (fun b hb => by
          simp only [ne_eq, decide_eq_true_eq]
          exact fun hba => hx (hba ▸ hb))
      simp [List.filter_cons, hfil]
      intro b hb hba
      exact hx (hba ▸ hb)
    · have hxa : x ≠ a := fun h => (List.nodup_cons.1 hn).1 (h ▸ ha2)
      have h2 := ih (List.nodup_cons.1 hn).2 ha2
      rw [List.filter_cons, if_pos (decide_eq_true hxa)]
      simp only [List.length_cons]
      omega

/-- Claim C1: with the name column present, no cancellation requested and no
render errors, the driver produces exactly one document per distinct
non-null value of the name column, processing them in first-seen order (the
document list is exactly `uniqueFS` of the non-null cells: duplicate-free,
containing each non-null name, and a sublist — hence in first-seen order —
of the column). -/
theorem c1_one_pdf_per_distinct_name (df : DataFrame) (nameCol : String)
    (cells : List (Option Value)) (render : Value → Except String Unit)
    (hcol : lookupCol df nameCol = some cells)
    (hok : ∀ n, render n = .ok ()) :
    workerRun render (fun _ => false) df nameCol = .ok
      { ok := (uniqueFS (dropna cells)).length, bad := 0,
        docs := uniqueFS (dropna cells), log := [],
        checks := (uniqueFS (dropna cells)).length, cancelled := false,
        msg := summaryMsg (uniqueFS (dropna cells)).length 0 false } ∧
    (uniqueFS (dropna cells)).Nodup ∧
    (∀ v, v ∈ uniqueFS (dropna cells) ↔ v ∈ dropna cells) ∧
    List.Sublist (uniqueFS (dropna cells)) (dropna cells) := by
  have hfil : okList render (uniqueFS (dropna cells)) = uniqueFS (dropna cells) :=
    List.filter_eq_self.mpr (fun n hn => by simp [isOkB, hok n])
  have hbadf : (uniqueFS (dropna cells)).filter (fun n => !(isOkB (render n))) = [] :=
    List.filter_eq_nil_iff.mpr (fun a ha => by simp [isOkB, hok a])
  have hlog : failLog render (uniqueFS (dropna cells)) 0 = [] := by
    apply List.eq_nil_of_length_eq_zero
    rw [failLog_length, hbadf]
    rfl
  refine ⟨?_, nodup_uniqueFS _, fun v => mem_uniqueFS v _, sublist_uniqueFS _⟩
  simp only [workerRun, hcol]
  rw [workerLoop_noStop, hfil, hbadf, hlog]
  simp

/-- Witness for C1: a column with two distinct names, a duplicate and an NA
cell yields exactly two documents, in first-seen order. -/
theorem c1_one_pdf_per_distinct_name_witness :
    workerRun (fun _ => .ok ()) (fun _ => false)
      ⟨[("نام", [some (.str "علی"), some (.str "رضا"), none, some (.str "علی")])]⟩
      "نام" = .ok
      { ok := 2, bad := 0, docs := [Value.str "علی", Value.str "رضا"], log := [],
        checks := 2, cancelled := false, msg := "✅ 2 PDF(s) created" } := by
  have h := (c1_one_pdf_per_distinct_name
    ⟨[("نام", [some (.str "علی"), some (.str "رضا"), none, some (.str "علی")])]⟩
    "نام" [some (.str "علی"), some (.str "رضا"), none, some (.str "علی")]
    (fun _ => .ok ()) rfl (fun n => rfl)).1
  rw [h]
  rfl

/-- Claim C2: when rendering exactly one employee fails, the driver counts
one failure, appends exactly one timestamped log entry carrying that
employee's name and the error detail, and still produces every other
employee's document (the summary message also reports the one failure). -/
theorem c2_single_failure_logged_batch_continues (df : DataFrame)
    (nameCol : String) (cells : List (Option Value))
    (render : Value → Except String Unit) (n0 : Value) (e : String)
    (hcol : lookupCol df nameCol = some cells)
    (hbad : render n0 = .error e)
    (hok : ∀ n, n ≠ n0 → render n = .ok ())
    (hmem : n0 ∈ dropna cells) :
    workerRun render (fun _ => false) df nameCol = .ok
      { ok := ((uniqueFS (dropna cells)).filter (fun v => v ≠ n0)).length,
        bad := 1,
        docs := (uniqueFS (dropna cells)).filter (fun v => v ≠ n0),
        log := failLog render (uniqueFS (dropna cells)) 0,
        checks := (uniqueFS (dropna cells)).length,
        cancelled := false,
        msg := summaryMsg ((uniqueFS (dropna cells)).filter (fun v => v ≠ n0)).length
          1 false } ∧
    ((uniqueFS (dropna cells)).filter (fun v => v ≠ n0)).length + 1
      = (uniqueFS (dropna cells)).length ∧
    (failLog render (uniqueFS (dropna cells)) 0).length = 1 ∧
    (∀ l ∈ failLog render (uniqueFS (dropna cells)) 0, l.name = n0 ∧ l.err = e) := by
  have hnodup : (uniqueFS (dropna cells)).Nodup := nodup_uniqueFS _
  have hnmem : n0 ∈ uniqueFS (dropna cells) := (mem_uniqueFS n0 _).2 hmem
  have hfil : okList render (uniqueFS (dropna cells))
      = (uniqueFS (dropna cells)).filter (fun v => v ≠ n0) := by
    apply List.filter_congr
    intro a ha
    by_cases hea : a = n0
    · subst hea; simp [isOkB, hbad]
    · simp [isOkB, hok a hea, hea]
  have hlen1 : ((uniqueFS (dropna cells)).filter (fun v => v ≠ n0)).length + 1
      = (uniqueFS (dropna cells)).length :=
    length_filter_ne_of_nodup _ _ hnodup hnmem
  have hpart := length_okList_add_length_filter_not render (uniqueFS (dropna cells))
  have hbadlen :
      ((uniqueFS (dropna cells)).filter (fun n => !(isOkB (render n)))).length = 1 := by
    rw [hfil] at hpart
    omega
  refine ⟨?_, hlen1, (failLog_length render _ 0).trans hbadlen, ?_⟩
  · simp only [workerRun, hcol]
    rw [workerLoop_noStop, hfil, hbadlen]
    simp
  · intro l hl
    obtain ⟨h1, h2⟩ := mem_failLog render _ 0 l hl
    by_cases he : l.name = n0
    · refine ⟨he, ?_⟩
      rw [he, hbad] at h1
      injection h1 with h3
      exact h3.symm
    · rw [hok l.name he] at h1
      cases h1

/-- Witness for C2: three names, the second fails, the other two documents
are produced and one log entry is written. -/
theorem c2_single_failure_logged_batch_continues_witness :
    workerRun (fun n => if n = Value.str "رضا" then .error "boom" else .ok ())
      (fun _ => false)
      ⟨[("نام", [some (.str "علی"), some (.str "رضا"), some (.str "سارا")])]⟩
      "نام" = .ok
      { ok := 2, bad := 1, docs := [Value.str "علی", Value.str "سارا"],
        log := [⟨1, Value.str "رضا", "boom"⟩], checks := 3, cancelled := false,
        msg := "✅ 2 PDF(s) created  –  ❌ 1 failed (see converter_error.log)" } := by
  have h := (c2_single_failure_logged_batch_continues
    ⟨[("نام", [some (.str "علی"), some (.str "رضا"), some (.str "سارا")])]⟩
    "نام" [some (.str "علی"), some (.str "رضا"), some (.str "سارا")]
    (fun n => if n = Value.str "رضا" then .error "boom" else .ok ())
    (Value.str "رضا") "boom" rfl rfl
    (fun n hn => by simp [hn]) (by decide)).1
  rw [h]
  rfl

/-- Claim C4: cancellation is cooperative, read once per started iteration:
with the flag set from iteration `k` on, exactly `min k n` employees are
processed (none after the flag is set, and the earlier documents all
remain), the succeeded count is at most `k`, the flag is read
`min (k + 1) n` times, and the final summary carries the cancelled marker
whenever the flag was set during the run. -/
theorem c4_cooperative_cancellation (df : DataFrame) (nameCol : String)
    (cells : List (Option Value)) (render : Value → Except String Unit) (k : Nat)
    (hcol : lookupCol df nameCol = some cells) :
    workerRun render (stopAt k) df nameCol = .ok
      { ok := (okList render ((uniqueFS (dropna cells)).take k)).length,
        bad := (((uniqueFS (dropna cells)).take k).filter
          (fun n => !(isOkB (render n)))).length,
        docs := okList render ((uniqueFS (dropna cells)).take k),
        log := failLog render ((uniqueFS (dropna cells)).take k) 0,
        checks := if k < (uniqueFS (dropna cells)).length then k + 1
          else (uniqueFS (dropna cells)).length,
        cancelled := decide (k ≤ (uniqueFS (dropna cells)).length),
        msg := summaryMsg (okList render ((uniqueFS (dropna cells)).take k)).length
          (((uniqueFS (dropna cells)).take k).filter
            (fun n => !(isOkB (render n)))).length
          (decide (k ≤ (uniqueFS (dropna cells)).length)) } ∧
    (okList render ((uniqueFS (dropna cells)).take k)).length ≤ k ∧
    (okList render ((uniqueFS (dropna cells)).take k)).length
      + (((uniqueFS (dropna cells)).take k).filter
        (fun n => !(isOkB (render n)))).length
      = min k (uniqueFS (dropna cells)).length ∧
    (k ≤ (uniqueFS (dropna cells)).length →
      summaryMsg (okList render ((uniqueFS (dropna cells)).take k)).length
        (((uniqueFS (dropna cells)).take k).filter
          (fun n => !(isOkB (render n)))).length
        (decide (k ≤ (uniqueFS (dropna cells)).length))
      = "⏹ Operation cancelled.
"
        ++ summaryMsg (okList render ((uniqueFS (dropna cells)).take k)).length
          (((uniqueFS (dropna cells)).take k).filter
            (fun n => !(isOkB (render n)))).length false) := by
  refine ⟨?_, ?_, ?_, ?_⟩
  · simp only [workerRun, hcol]
    rw [workerLoop_stopAt]
    simp [stopAt]
  · exact le_trans (List.length_filter_le _ _)
      (by rw [List.length_take]; exact Nat.min_le_left _ _)
  · have h := length_okList_add_length_filter_not render
      ((uniqueFS (dropna cells)).take k)
    rw [List.length_take] at h
    exact h
  · intro hk
    simp [summaryMsg, hk]

/-- Witness for C4: cancelling at iteration 2 of a 3-name batch processes
exactly 2 employees and marks the summary cancelled. -/
theorem c4_cooperative_cancellation_witness :
    workerRun (fun _ => .ok ()) (stopAt 2)
      ⟨[("نام", [some (.str "علی"), some (.str "رضا"), some (.str "سارا")])]⟩
      "نام" = .ok
      { ok := 2, bad := 0, docs := [Value.str "علی", Value.str "رضا"], log := [],
        checks := 3, cancelled := true,
        msg := "⏹ Operation cancelled.
✅ 2 PDF(s) created" } ∧
    summaryMsg 2 0 true = "⏹ Operation cancelled.
" ++ summaryMsg 2 0 false := by
  have h := c4_cooperative_cancellation
    ⟨[("نام", [some (.str "علی"), some (.str "رضا"), some (.str "سارا")])]⟩
    "نام" [some (.str "علی"), some (.str "رضا"), some (.str "سارا")]
    (fun _ => .ok ()) 2 rfl
  constructor
  · rw [h.1]
    rfl
  · have h4 := h.2.2.2 (by decide)
    exact h4
  
end ExcelToPdf
